import Mathlib

/-
  Shallow embedding of the deterministic core of the ai_therapist repository:
  the per-user state store (tasks, reminders, goals, user memories) and the
  state-mutating tool functions in src/tools, plus the static agent
  configurations in src/agents. Timestamps (datetime.now().isoformat()) are
  passed in as an explicit `now : String` argument; the ADK tool context is
  modelled as an explicit `user_id : String` plus an explicit `StoreState`.
  A Python dict is modelled as an association list with unique keys in
  insertion order; a dict key that may be absent is an `Option`.
-/

namespace AiTherapist

/-- One entry of tool_context.state["tasks"] as built by create_task. -/
structure Task where
  id : Nat
  user_id : String
  title : String
  due_date : String
  priority : String
  completed : Bool
  created_at : String
deriving Repr, DecidableEq

/-- One entry of tool_context.state["reminders"] as built by schedule_reminder. -/
structure Reminder where
  id : Nat
  user_id : String
  title : String
  date : String
  time : String
  created_at : String
deriving Repr, DecidableEq

/-- One entry of tool_context.state["goals"] as built by create_goal_with_routine.
approved_at and updated_at are absent until approve_goal / update_goal_status set them. -/
structure Goal where
  id : Nat
  user_id : String
  title : String
  description : String
  routine : String
  frequency : String
  duration : String
  start_date : String
  status : String
  created_at : String
  approved : Bool
  approved_at : Option String
  updated_at : Option String
deriving Repr, DecidableEq

/-- A {response, timestamp} entry in a therapeutic trigger bucket. -/
structure PatternEntry where
  response : String
  timestamp : String
deriving Repr, DecidableEq

/-- The per-trigger record of save_therapeutic_pattern. -/
structure TriggerBucket where
  helpful_responses : List PatternEntry
  unhelpful_responses : List PatternEntry
deriving Repr, DecidableEq

/-- The memory["therapeutic_patterns"] sub-record. -/
structure TherapeuticPatterns where
  triggers : List (String × TriggerBucket)
  preferred_styles : List String
  avoided_styles : List String
deriving Repr, DecidableEq

/-- A value stored under a top-level key of a user memory dict. The Python
dict is heterogeneous: the default keys hold maps, lists or the patterns
record, while the fallback branch of save_to_memory stores a bare string. -/
inductive MemValue where
  | str : String → MemValue
  | strMap : List (String × String) → MemValue
  | strList : List String → MemValue
  | patterns : TherapeuticPatterns → MemValue
deriving Repr, DecidableEq

/-- A user memory dict: top-level string keys to heterogeneous values. -/
abbrev Memory : Type := List (String × MemValue)

/-- Lookup in an association list (first match), as Python dict access. -/
def assocGet {α : Type} (k : String) : List (String × α) → Option α
  | [] => none
  | (k2, v) :: rest => if k2 == k then some v else assocGet k rest

/-- Assignment d[k] = v on an association list: replaces the first binding
of k in place, or appends a new binding at the end, as a Python dict. -/
def assocSet {α : Type} (k : String) (v : α) : List (String × α) → List (String × α)
  | [] => [(k, v)]
  | (k2, v2) :: rest => if k2 == k then (k, v) :: rest else (k2, v2) :: assocSet k v rest

/-- The default memory structure created on first access for a user
(load_memory / save_to_memory / save_therapeutic_pattern all build it). -/
def defaultMemory : Memory :=
  [("personal_details", MemValue.strMap []),
   ("preferences", MemValue.strMap []),
   ("therapeutic_patterns",
     MemValue.patterns { triggers := [], preferred_styles := [], avoided_styles := [] }),
   ("history", MemValue.strList []),
   ("interests", MemValue.strList [])]

/-- tool_context.state: each top-level key may be absent (`none`) or hold a
collection. user_memories maps user id to the Memory of that user. -/
structure StoreState where
  tasks : Option (List Task)
  reminders : Option (List Reminder)
  goals : Option (List Goal)
  user_memories : Option (List (String × Memory))
deriving Repr, DecidableEq

/-- A fresh tool_context.state with no keys set. -/
def emptyState : StoreState :=
  { tasks := none, reminders := none, goals := none, user_memories := none }

/-- create_task (src/tools/task_tools.py): appends a Task whose id is
len(state["tasks"]) + 1, lazily creating the tasks list. Returns the
confirmation string. -/
def create_task (title due_date priority now user_id : String)
    (st : StoreState) : StoreState × String :=
  let tasks0 := st.tasks.getD []
  let task : Task :=
    { id := tasks0.length + 1, user_id := user_id, title := title,
      due_date := due_date, priority := priority, completed := false,
      created_at := now }
  ({ st with tasks := some (tasks0 ++ [task]) },
   "✓ Task created: " ++ title ++
     (if due_date ≠ "" then " (due: " ++ due_date ++ ")" else ""))

/-- The user_tasks filter computed inside get_tasks:
[t for t in state["tasks"] if t.get("user_id") == user_id]. -/
def get_tasks_user_tasks (user_id : String) (st : StoreState) : List Task :=
  (st.tasks.getD []).filter (fun t => t.user_id == user_id)

/-- get_tasks (src/tools/task_tools.py): lazily creates the tasks list,
filters by the calling user, and formats the result. -/
def get_tasks (user_id : String) (st : StoreState) : StoreState × String :=
  let st1 : StoreState := { st with tasks := some (st.tasks.getD []) }
  let user_tasks := get_tasks_user_tasks user_id st1
  if user_tasks.isEmpty then
    (st1, "You have no tasks.")
  else
    (st1,
      user_tasks.foldl
        (fun acc task =>
          acc ++ "\n• " ++ task.title ++ " - Priority: " ++ task.priority ++
            (if task.due_date ≠ "" then " (due: " ++ task.due_date ++ ")" else ""))
        ("You have " ++ toString user_tasks.length ++ " task(s):\n"))

/-- schedule_reminder (src/tools/task_tools.py): appends a Reminder whose id
is len(state["reminders"]) + 1, lazily creating the reminders list. -/
def schedule_reminder (title date time now user_id : String)
    (st : StoreState) : StoreState × String :=
  let rs0 := st.reminders.getD []
  let reminder : Reminder :=
    { id := rs0.length + 1, user_id := user_id, title := title,
      date := date, time := time, created_at := now }
  ({ st with reminders := some (rs0 ++ [reminder]) },
   "✓ Reminder set: " ++ title ++ " on " ++ date ++ " at " ++ time)

/-- create_goal_with_routine (src/tools/goal_tools.py): appends a Goal in
status pending_approval with approved = false and id len(goals) + 1. -/
def create_goal_with_routine (title goal_description routine frequency duration
    start_date now user_id : String) (st : StoreState) : StoreState × String :=
  let goals0 := st.goals.getD []
  let goal_id := goals0.length + 1
  let goal : Goal :=
    { id := goal_id, user_id := user_id, title := title,
      description := goal_description, routine := routine,
      frequency := frequency, duration := duration, start_date := start_date,
      status := "pending_approval", created_at := now, approved := false,
      approved_at := none, updated_at := none }
  ({ st with goals := some (goals0 ++ [goal]) },
   "\n📋 Goal Created (ID: " ++ toString goal_id ++ ") - Pending Your Approval\n\n**"
     ++ title ++ "**\n\n🎯 Goal: " ++ goal_description ++ "\n\n📅 Routine:\n"
     ++ routine ++ "\n\n⏰ Frequency: " ++ frequency ++ "\n⏳ Duration: "
     ++ duration ++ "\n🚀 Start Date: " ++ start_date ++
     "\n\nType \x27approve\x27 to activate this goal, or tell me what you\x27d like to change.\n")

/-- The id+user match predicate used by the goal lookup loops. -/
def goalMatch (goal_id : Nat) (user_id : String) (g : Goal) : Bool :=
  g.id == goal_id && g.user_id == user_id

/-- The for-loop-with-break mutation pattern of goal_tools: update the first
goal satisfying p in place, leaving the rest of the list untouched. -/
def updateFirstGoal (p : Goal → Bool) (f : Goal → Goal) : List Goal → List Goal
  | [] => []
  | g :: gs => if p g then f g :: gs else g :: updateFirstGoal p f gs

/-- The success confirmation string of approve_goal. -/
def approvedMessage (title : String) : String :=
  "✅ Goal \x27" ++ title ++ "\x27 is now active! Let\x27s make it happen! 🎉"

/-- The not-found string shared by approve_goal and update_goal_status. -/
def goalNotFound (goal_id : Nat) : String :=
  "❌ Goal ID " ++ toString goal_id ++ " not found."

/-- approve_goal (src/tools/goal_tools.py): on the first goal matching
id+user, sets approved = true, status = "active", approved_at = now; returns
the not-found string when no goal matches, a distinct string when the goals
key is absent. -/
def approve_goal (goal_id : Nat) (now user_id : String)
    (st : StoreState) : StoreState × String :=
  match st.goals with
  | none => (st, "❌ No goals found to approve.")
  | some goals =>
    match goals.find? (goalMatch goal_id user_id) with
    | none => (st, goalNotFound goal_id)
    | some g =>
      let goals1 := updateFirstGoal (goalMatch goal_id user_id)
        (fun g => { g with approved := true, status := "active", approved_at := some now })
        goals
      ({ st with goals := some goals1 }, approvedMessage g.title)

/-- The status_messages dict of update_goal_status with its .get fallback. -/
def statusMessage (status title : String) : String :=
  if status == "completed" then
    "🎉 Congratulations! Goal \x27" ++ title ++ "\x27 marked as completed!"
  else if status == "paused" then
    "⏸️ Goal \x27" ++ title ++ "\x27 paused. You can resume it anytime."
  else if status == "cancelled" then
    "🚫 Goal \x27" ++ title ++ "\x27 cancelled."
  else if status == "active" then
    "✅ Goal \x27" ++ title ++ "\x27 is now active!"
  else
    "✓ Goal status updated to: " ++ status

/-- update_goal_status (src/tools/goal_tools.py): on the first goal matching
id+user, overwrites status with the given string (no validation, no approval
check) and sets updated_at; returns a per-status message with a generic
fallback, or the not-found string when no goal matches. -/
def update_goal_status (goal_id : Nat) (status now user_id : String)
    (st : StoreState) : StoreState × String :=
  match st.goals with
  | none => (st, "❌ No goals found.")
  | some goals =>
    match goals.find? (goalMatch goal_id user_id) with
    | none => (st, goalNotFound goal_id)
    | some g =>
      let goals1 := updateFirstGoal (goalMatch goal_id user_id)
        (fun g => { g with status := status, updated_at := some now })
        goals
      ({ st with goals := some goals1 }, statusMessage status g.title)

/-- The record {"user_id": ..., "memory": ...} returned by load_memory. -/
structure LoadResult where
  user_id : String
  memory : Memory
deriving Repr, DecidableEq

/-- The value a tool call places into the calling context: either a
human-readable string or a structured record. -/
inductive ToolRet where
  | text : String → ToolRet
  | structured : LoadResult → ToolRet
deriving Repr, DecidableEq

/-- Whether a tool return value is a plain string. -/
def ToolRet.isText : ToolRet → Bool
  | .text _ => true
  | .structured _ => false

/-- The lazy per-user init shared by the memory tools: create the
user_memories dict if absent, then the default Memory of the user if absent. -/
def initUserMemories (user_id : String) (st : StoreState) : List (String × Memory) :=
  let ums := st.user_memories.getD []
  if (assocGet user_id ums).isSome then ums else assocSet user_id defaultMemory ums

/-- The memory of the calling user after the lazy init. -/
def userMem (user_id : String) (st : StoreState) : Memory :=
  (assocGet user_id (initUserMemories user_id st)).getD defaultMemory

/-- load_memory (src/tools/memory_tools.py): lazily creates the
memory structure of the user and returns the dict {"user_id": ..., "memory": ...} —
a structured value, not a string. -/
def load_memory (user_id : String) (st : StoreState) : StoreState × ToolRet :=
  let ums1 := initUserMemories user_id st
  ({ st with user_memories := some ums1 },
   ToolRet.structured { user_id := user_id, memory := (assocGet user_id ums1).getD defaultMemory })

/-- save_to_memory (src/tools/memory_tools.py): routes by key to the
matching memory sub-field; any unrecognized key is stored as a top-level
field holding the raw value string. `none` models the Python TypeError /
AttributeError raised when the targeted sub-field no longer has the
expected shape (e.g. after being overwritten by the fallback branch). -/
def save_to_memory (key value user_id : String)
    (st : StoreState) : Option (StoreState × String) :=
  let ums1 := initUserMemories user_id st
  let memory := userMem user_id st
  let memory1? : Option Memory :=
    if key == "name" then
      match assocGet "personal_details" memory with
      | some (MemValue.strMap m) =>
        some (assocSet "personal_details" (MemValue.strMap (assocSet "name" value m)) memory)
      | _ => none
    else if key == "interests" then
      match assocGet "interests" memory with
      | some (MemValue.strList l) =>
        some (assocSet "interests" (MemValue.strList (l ++ [value])) memory)
      | _ => none
    else if key == "preferences" then
      match assocGet "preferences" memory with
      | some (MemValue.strMap m) =>
        some (assocSet "preferences" (MemValue.strMap (assocSet "general" value m)) memory)
      | _ => none
    else if key == "history" then
      match assocGet "history" memory with
      | some (MemValue.strList l) =>
        some (assocSet "history" (MemValue.strList (l ++ [value])) memory)
      | _ => none
    else
      some (assocSet key (MemValue.str value) memory)
  match memory1? with
  | none => none
  | some memory1 =>
    some ({ st with user_memories := some (assocSet user_id memory1 ums1) },
          "✓ Saved " ++ key ++ " to memory")

/-- Python str.lower() as used on trigger strings: per-character ASCII
lowercasing. Defined structurally on the character list so it evaluates. -/
def strLower (s : String) : String := String.mk (s.data.map Char.toLower)

/-- Python str.strip(): drop leading and trailing whitespace. Defined
structurally on the character list so it evaluates. -/
def strStrip (s : String) : String :=
  String.mk (((s.data.dropWhile Char.isWhitespace).reverse.dropWhile Char.isWhitespace).reverse)

/-- The trigger-key normalization trigger.lower().strip(). -/
def normalizeTrigger (s : String) : String := strStrip (strLower s)

/-- save_therapeutic_pattern (src/tools/memory_tools.py): normalizes the
trigger via lower + strip, lazily creates the trigger bucket, and appends a
timestamped entry to helpful_responses or unhelpful_responses. `none`
models the Python error raised when therapeutic_patterns no longer holds
the patterns record. The append of the timestamped entry to
helpful_responses or unhelpful_responses is factored out as bucketAppend. -/
def bucketAppend (bucket : TriggerBucket) (response : String) (helpful : Bool)
    (now : String) : TriggerBucket :=
  let entry : PatternEntry := { response := response, timestamp := now }
  if helpful then
    { bucket with helpful_responses := bucket.helpful_responses ++ [entry] }
  else
    { bucket with unhelpful_responses := bucket.unhelpful_responses ++ [entry] }

/-- save_therapeutic_pattern (src/tools/memory_tools.py), continued from
the comment above: lower + strip the trigger, lazily create the bucket,
append the entry, return the helpful / unhelpful confirmation. -/
def save_therapeutic_pattern (trigger response : String) (helpful : Bool)
    (now user_id : String) (st : StoreState) : Option (StoreState × String) :=
  let ums1 := initUserMemories user_id st
  let memory := userMem user_id st
  match assocGet "therapeutic_patterns" memory with
  | some (MemValue.patterns pats) =>
    let trigger_key := normalizeTrigger trigger
    let bucket := (assocGet trigger_key pats.triggers).getD
      { helpful_responses := [], unhelpful_responses := [] }
    let bucket1 := bucketAppend bucket response helpful now
    let pats1 := { pats with triggers := assocSet trigger_key bucket1 pats.triggers }
    let memory1 := assocSet "therapeutic_patterns" (MemValue.patterns pats1) memory
    some ({ st with user_memories := some (assocSet user_id memory1 ums1) },
          if helpful then
            "✓ Marked as helpful for \x27" ++ trigger ++ "\x27"
          else
            "✓ Marked as unhelpful for \x27" ++ trigger ++ "\x27 - will try different approach next time")
  | _ => none

/-- A static agent configuration: name, kind ("llm" or "sequential"),
model id, tool function names, sub-agent names, optional output key. -/
structure AgentConfig where
  name : String
  kind : String
  model : String
  tools : List String
  sub_agents : List String
  output_key : Option String
deriving Repr, DecidableEq

/-- therapeutic_agent (src/agents/specialized_agents.py). -/
def therapeutic_agent : AgentConfig :=
  { name := "therapeutic_support", kind := "llm", model := "gemini-2.5-flash-lite",
    tools := ["load_memory", "save_therapeutic_pattern"], sub_agents := [],
    output_key := none }

/-- task_agent (src/agents/specialized_agents.py). -/
def task_agent : AgentConfig :=
  { name := "task_manager", kind := "llm", model := "gemini-2.5-flash-lite",
    tools := ["get_current_datetime", "create_task", "get_tasks",
              "schedule_reminder", "get_reminders", "get_all_items"],
    sub_agents := [], output_key := none }

/-- goal_refinement_agent (src/agents/goal_refinement_agent.py). -/
def goal_refinement_agent : AgentConfig :=
  { name := "goal_refinement", kind := "llm", model := "gemini-2.0-flash",
    tools := ["get_current_datetime", "create_goal_with_routine", "approve_goal",
              "get_goal", "list_goals", "update_goal_status"],
    sub_agents := [], output_key := none }

/-- search_agent (src/agents/search_agent.py). -/
def search_agent : AgentConfig :=
  { name := "search_specialist", kind := "llm", model := "gemini-2.5-flash-lite",
    tools := ["google_search"], sub_agents := [], output_key := none }

/-- emotion_extractor_agent (src/agents/sequential_agent.py), stage 1. -/
def emotion_extractor_agent : AgentConfig :=
  { name := "emotion_extractor", kind := "llm", model := "gemini-2.5-flash-lite",
    tools := [], sub_agents := [], output_key := some "emotion_data" }

/-- pattern_analyzer_agent (src/agents/sequential_agent.py), stage 2. -/
def pattern_analyzer_agent : AgentConfig :=
  { name := "pattern_analyzer", kind := "llm", model := "gemini-2.5-flash-lite",
    tools := [], sub_agents := [], output_key := some "patterns_found" }

/-- insight_generator_agent (src/agents/sequential_agent.py), stage 3. -/
def insight_generator_agent : AgentConfig :=
  { name := "insight_generator", kind := "llm", model := "gemini-2.5-flash-lite",
    tools := ["save_to_memory"], sub_agents := [], output_key := some "final_insight" }

/-- journal_analysis_flow (src/agents/sequential_agent.py): the three-stage
sequential pipeline. -/
def journal_analysis_flow : AgentConfig :=
  { name := "journal_analyzer", kind := "sequential", model := "",
    tools := [],
    sub_agents := [emotion_extractor_agent.name, pattern_analyzer_agent.name,
                   insight_generator_agent.name],
    output_key := none }

/-- root_agent (src/agents/root_agent.py): the Root Dispatcher. Its
sub_agents list holds exactly therapeutic_agent, task_agent,
goal_refinement_agent and search_agent. -/
def root_agent : AgentConfig :=
  { name := "personal_assistant", kind := "llm", model := "gemini-2.5-flash-lite",
    tools := ["load_memory", "save_to_memory"],
    sub_agents := [therapeutic_agent.name, task_agent.name,
                   goal_refinement_agent.name, search_agent.name],
    output_key := none }

/-- The arguments of one create_task call. -/
structure TaskReq where
  user : String
  title : String
  due_date : String
  priority : String
  now : String
deriving Repr, DecidableEq

/-- The arguments of one schedule_reminder call. -/
structure ReminderReq where
  user : String
  title : String
  date : String
  time : String
  now : String
deriving Repr, DecidableEq

/-- One tool call in a sequential execution of the task tools. -/
inductive Op where
  | task : TaskReq → Op
  | rem : ReminderReq → Op
deriving Repr, DecidableEq

/-- Apply one task-tool call to the store, keeping the state component. -/
def applyOp (st : StoreState) : Op → StoreState
  | Op.task r => (create_task r.title r.due_date r.priority r.now r.user st).1
  | Op.rem r => (schedule_reminder r.title r.date r.time r.now r.user st).1

/-- Run a sequence of task-tool calls left to right. -/
def runOps : List Op → StoreState → StoreState
  | [], st => st
  | op :: ops, st => runOps ops (applyOp st op)

/-- The Task dict that create_task builds for request r with the given id. -/
def taskOf (id : Nat) (r : TaskReq) : Task :=
  { id := id, user_id := r.user, title := r.title, due_date := r.due_date,
    priority := r.priority, completed := false, created_at := r.now }

/-- The Reminder dict that schedule_reminder builds for request r. -/
def reminderOf (id : Nat) (r : ReminderReq) : Reminder :=
  { id := id, user_id := r.user, title := r.title, date := r.date,
    time := r.time, created_at := r.now }

/-- The tasks appended by a request list when n tasks are already stored. -/
def tasksFrom (n : Nat) : List TaskReq → List Task
  | [] => []
  | r :: rs => taskOf (n + 1) r :: tasksFrom (n + 1) rs

/-- The reminders appended by a request list when n are already stored. -/
def remsFrom (n : Nat) : List ReminderReq → List Reminder
  | [] => []
  | r :: rs => reminderOf (n + 1) r :: remsFrom (n + 1) rs

/-- The create_task requests of an op sequence. -/
def taskReqOf? : Op → Option TaskReq
  | Op.task r => some r
  | Op.rem _ => none

/-- The schedule_reminder requests of an op sequence. -/
def remReqOf? : Op → Option ReminderReq
  | Op.task _ => none
  | Op.rem r => some r

theorem runOps_tasks (ops : List Op) : ∀ st : StoreState,
    (runOps ops st).tasks.getD []
      = (st.tasks.getD []) ++ tasksFrom (st.tasks.getD []).length (ops.filterMap taskReqOf?) := by
  induction ops with
  | nil => intro st; simp [runOps, tasksFrom]
  | cons op ops ih =>
    intro st
    cases op with
    | task r =>
      have h1 : (applyOp st (Op.task r)).tasks.getD []
          = (st.tasks.getD []) ++ [taskOf ((st.tasks.getD []).length + 1) r] := by
        simp [applyOp, create_task, taskOf]
      calc (runOps (Op.task r :: ops) st).tasks.getD []
          = (runOps ops (applyOp st (Op.task r))).tasks.getD [] := rfl
        _ = ((applyOp st (Op.task r)).tasks.getD [])
              ++ tasksFrom ((applyOp st (Op.task r)).tasks.getD []).length
                    (ops.filterMap taskReqOf?) := ih _
        _ = (st.tasks.getD []) ++ tasksFrom (st.tasks.getD []).length
                ((Op.task r :: ops).filterMap taskReqOf?) := by
            rw [h1]
            simp [tasksFrom, taskReqOf?, List.filterMap_cons]
    | rem r =>
      have h1 : (applyOp st (Op.rem r)).tasks = st.tasks := by
        simp [applyOp, schedule_reminder]
      calc (runOps (Op.rem r :: ops) st).tasks.getD []
          = (runOps ops (applyOp st (Op.rem r))).tasks.getD [] := rfl
        _ = ((applyOp st (Op.rem r)).tasks.getD [])
              ++ tasksFrom ((applyOp st (Op.rem r)).tasks.getD []).length
                    (ops.filterMap taskReqOf?) := ih _
        _ = (st.tasks.getD []) ++ tasksFrom (st.tasks.getD []).length
                ((Op.rem r :: ops).filterMap taskReqOf?) := by
            rw [h1]
            simp [taskReqOf?, List.filterMap_cons]

theorem runOps_reminders (ops : List Op) : ∀ st : StoreState,
    (runOps ops st).reminders.getD []
      = (st.reminders.getD []) ++ remsFrom (st.reminders.getD []).length (ops.filterMap remReqOf?) := by
  induction ops with
  | nil => intro st; simp [runOps, remsFrom]
  | cons op ops ih =>
    intro st
    cases op with
    | task r =>
      have h1 : (applyOp st (Op.task r)).reminders = st.reminders := by
        simp [applyOp, create_task]
      calc (runOps (Op.task r :: ops) st).reminders.getD []
          = (runOps ops (applyOp st (Op.task r))).reminders.getD [] := rfl
        _ = ((applyOp st (Op.task r)).reminders.getD [])
              ++ remsFrom ((applyOp st (Op.task r)).reminders.getD []).length
                    (ops.filterMap remReqOf?) := ih _
        _ = (st.reminders.getD []) ++ remsFrom (st.reminders.getD []).length
                ((Op.task r :: ops).filterMap remReqOf?) := by
            rw [h1]
            simp [remReqOf?, List.filterMap_cons]
    | rem r =>
      have h1 : (applyOp st (Op.rem r)).reminders.getD []
          = (st.reminders.getD []) ++ [reminderOf ((st.reminders.getD []).length + 1) r] := by
        simp [applyOp, schedule_reminder, reminderOf]
      calc (runOps (Op.rem r :: ops) st).reminders.getD []
          = (runOps ops (applyOp st (Op.rem r))).reminders.getD [] := rfl
        _ = ((applyOp st (Op.rem r)).reminders.getD [])
              ++ remsFrom ((applyOp st (Op.rem r)).reminders.getD []).length
                    (ops.filterMap remReqOf?) := ih _
        _ = (st.reminders.getD []) ++ remsFrom (st.reminders.getD []).length
                ((Op.rem r :: ops).filterMap remReqOf?) := by
            rw [h1]
            simp [remsFrom, remReqOf?, List.filterMap_cons]

theorem tasksFrom_map_id (rs : List TaskReq) : ∀ n : Nat,
    (tasksFrom n rs).map Task.id = List.range' (n + 1) rs.length := by
  induction rs with
  | nil => intro n; simp [tasksFrom]
  | cons r rs ih =>
    intro n
    simp [tasksFrom, taskOf, List.range'_succ, ih (n + 1)]

theorem remsFrom_map_id (rs : List ReminderReq) : ∀ n : Nat,
    (remsFrom n rs).map Reminder.id = List.range' (n + 1) rs.length := by
  induction rs with
  | nil => intro n; simp [remsFrom]
  | cons r rs ih =>
    intro n
    simp [remsFrom, reminderOf, List.range'_succ, ih (n + 1)]

theorem tasksFrom_filter_user (u : String) (rs : List TaskReq) : ∀ n : Nat,
    ((tasksFrom n rs).filter (fun t => t.user_id == u)).map
        (fun t => (t.title, t.due_date, t.priority))
      = (rs.filter (fun r => r.user == u)).map
          (fun r => (r.title, r.due_date, r.priority)) := by
  induction rs with
  | nil => intro n; simp [tasksFrom]
  | cons r rs ih =>
    intro n
    by_cases h : r.user == u
    · simp [tasksFrom, taskOf, List.filter_cons, h, ih (n + 1)]
    · simp only [Bool.not_eq_true] at h
      simp [tasksFrom, taskOf, List.filter_cons, h, ih (n + 1)]

theorem find?_updateFirstGoal (p : Goal → Bool) (f : Goal → Goal) :
    ∀ (l : List Goal) (g : Goal), l.find? p = some g → p (f g) = true →
      (updateFirstGoal p f l).find? p = some (f g) := by
  intro l
  induction l with
  | nil => intro g hg _; simp [List.find?] at hg
  | cons a l ih =>
    intro g hg hf
    by_cases ha : p a = true
    · rw [List.find?_cons_of_pos _ ha] at hg
      injection hg with hg
      subst hg
      simp [updateFirstGoal, ha, List.find?_cons_of_pos _ hf]
    · rw [List.find?_cons_of_neg _ ha] at hg
      simp only [updateFirstGoal, if_neg ha]
      rw [List.find?_cons_of_neg _ ha]
      exact ih g hg hf

theorem approve_goal_found (st : StoreState) (gs : List Goal) (g0 : Goal)
    (goal_id : Nat) (now user_id : String)
    (hgs : st.goals = some gs)
    (hfind : gs.find? (goalMatch goal_id user_id) = some g0) :
    approve_goal goal_id now user_id st =
      ({ st with goals := some (updateFirstGoal (goalMatch goal_id user_id)
          (fun g => { g with approved := true, status := "active", approved_at := some now })
          gs) },
       approvedMessage g0.title) := by
  unfold approve_goal
  rw [hgs]
  simp [hfind]

theorem approve_goal_miss (st : StoreState) (gs : List Goal)
    (goal_id : Nat) (now user_id : String)
    (hgs : st.goals = some gs)
    (hfind : gs.find? (goalMatch goal_id user_id) = none) :
    approve_goal goal_id now user_id st = (st, goalNotFound goal_id) := by
  unfold approve_goal
  rw [hgs]
  simp [hfind]

theorem update_goal_status_found (st : StoreState) (gs : List Goal) (g0 : Goal)
    (goal_id : Nat) (status now user_id : String)
    (hgs : st.goals = some gs)
    (hfind : gs.find? (goalMatch goal_id user_id) = some g0) :
    update_goal_status goal_id status now user_id st =
      ({ st with goals := some (updateFirstGoal (goalMatch goal_id user_id)
          (fun g => { g with status := status, updated_at := some now })
          gs) },
       statusMessage status g0.title) := by
  unfold update_goal_status
  rw [hgs]
  simp [hfind]

theorem update_goal_status_miss (st : StoreState) (gs : List Goal)
    (goal_id : Nat) (status now user_id : String)
    (hgs : st.goals = some gs)
    (hfind : gs.find? (goalMatch goal_id user_id) = none) :
    update_goal_status goal_id status now user_id st = (st, goalNotFound goal_id) := by
  unfold update_goal_status
  rw [hgs]
  simp [hfind]

theorem goalMatch_of_approve_update (goal_id : Nat) (user_id now : String) (g : Goal)
    (h : goalMatch goal_id user_id g = true) :
    goalMatch goal_id user_id
      { g with approved := true, status := "active", approved_at := some now } = true := by
  simpa [goalMatch] using h

theorem goalMatch_of_status_update (goal_id : Nat) (user_id status now : String) (g : Goal)
    (h : goalMatch goal_id user_id g = true) :
    goalMatch goal_id user_id { g with status := status, updated_at := some now } = true := by
  simpa [goalMatch] using h

/-- Claim C1: for every sequence of create_task calls by a given user,
interleaved arbitrarily with task-tool calls by other users, the user_tasks
list that a subsequent get_tasks call computes holds exactly the tasks that
user created (title, due date, priority), in creation order, and every task
in it belongs to that user. -/
theorem C1_get_tasks_returns_exactly_user_tasks (u : String) (ops : List Op) :
    (get_tasks_user_tasks u (runOps ops emptyState)).map
        (fun t => (t.title, t.due_date, t.priority))
      = ((ops.filterMap taskReqOf?).filter (fun r => r.user == u)).map
          (fun r => (r.title, r.due_date, r.priority))
    ∧ ∀ t ∈ get_tasks_user_tasks u (runOps ops emptyState), t.user_id = u := by
  have hrun := runOps_tasks ops emptyState
  have h0 : emptyState.tasks.getD [] = ([] : List Task) := rfl
  constructor
  · unfold get_tasks_user_tasks
    rw [hrun, h0]
    simpa using tasksFrom_filter_user u (ops.filterMap taskReqOf?) 0
  · intro t ht
    unfold get_tasks_user_tasks at ht
    exact eq_of_beq (List.mem_filter.mp ht).2

/-- Claim C8: under sequential execution from a fresh store, task ids form
the single global sequence 1, 2, ... across all users (the k-th created
task has id k), so all task ids are distinct; the same holds for reminder
ids assigned by schedule_reminder over the reminders collection. -/
theorem C8_ids_form_global_sequence (ops : List Op) :
    ((runOps ops emptyState).tasks.getD []).map Task.id
        = List.range' 1 (ops.filterMap taskReqOf?).length
    ∧ (((runOps ops emptyState).tasks.getD []).map Task.id).Nodup
    ∧ ((runOps ops emptyState).reminders.getD []).map Reminder.id
        = List.range' 1 (ops.filterMap remReqOf?).length
    ∧ (((runOps ops emptyState).reminders.getD []).map Reminder.id).Nodup := by
  have ht : ((runOps ops emptyState).tasks.getD []).map Task.id
      = List.range' 1 (ops.filterMap taskReqOf?).length := by
    rw [runOps_tasks ops emptyState]
    simpa using tasksFrom_map_id (ops.filterMap taskReqOf?) 0
  have hr : ((runOps ops emptyState).reminders.getD []).map Reminder.id
      = List.range' 1 (ops.filterMap remReqOf?).length := by
    rw [runOps_reminders ops emptyState]
    simpa using remsFrom_map_id (ops.filterMap remReqOf?) 0
  refine ⟨ht, ?_, hr, ?_⟩
  · rw [ht]; exact List.nodup_range' 1 _
  · rw [hr]; exact List.nodup_range' 1 _

/-- A concrete never-approved goal as create_goal_with_routine builds it. -/
def sampleGoal : Goal :=
  { id := 1, user_id := "u1", title := "Morning Walk Routine",
    description := "Build a consistent walking habit",
    routine := "Walk outside for 20 minutes", frequency := "3x per week",
    duration := "30 days", start_date := "2025-12-02",
    status := "pending_approval", created_at := "2025-12-01T10:30:00",
    approved := false, approved_at := none, updated_at := none }

/-- A concrete store whose goals list holds exactly sampleGoal. -/
def sampleState : StoreState :=
  { tasks := none, reminders := none, goals := some [sampleGoal],
    user_memories := none }

/-- Claim C2: approve_goal is idempotent in effect: for a goal id that
exists for the calling user, calling approve_goal twice leaves the goal
with approved = true and status = "active", and the second call returns
the success confirmation, not an error. -/
theorem C2_approve_goal_idempotent (st : StoreState) (gs : List Goal)
    (goal_id : Nat) (t1 t2 u : String)
    (hgs : st.goals = some gs)
    (hmem : ∃ g ∈ gs, goalMatch goal_id u g = true) :
    ∃ g2 : Goal,
      ((approve_goal goal_id t2 u (approve_goal goal_id t1 u st).1).1.goals.getD []).find?
          (goalMatch goal_id u) = some g2
      ∧ g2.approved = true ∧ g2.status = "active"
      ∧ (approve_goal goal_id t2 u (approve_goal goal_id t1 u st).1).2
          = approvedMessage g2.title := by
  have hsome : (gs.find? (goalMatch goal_id u)).isSome := by
    rw [List.find?_isSome]
    exact hmem
  obtain ⟨g0, hfind⟩ := Option.isSome_iff_exists.mp hsome
  have hp0 : goalMatch goal_id u g0 = true := List.find?_some hfind
  have hp1 := goalMatch_of_approve_update goal_id u t1 g0 hp0
  have e1 := approve_goal_found st gs g0 goal_id t1 u hgs hfind
  set f1 : Goal → Goal :=
    fun g => { g with approved := true, status := "active", approved_at := some t1 } with hf1
  set l1 := updateFirstGoal (goalMatch goal_id u) f1 gs with hl1
  have hgs1 : (approve_goal goal_id t1 u st).1.goals = some l1 := by
    rw [e1]
  have hfind1 : l1.find? (goalMatch goal_id u) = some (f1 g0) :=
    find?_updateFirstGoal (goalMatch goal_id u) f1 gs g0 hfind hp1
  have hp2 := goalMatch_of_approve_update goal_id u t2 (f1 g0)
    (by simpa [hf1] using hp1)
  have e2 := approve_goal_found (approve_goal goal_id t1 u st).1 l1 (f1 g0)
    goal_id t2 u hgs1 hfind1
  set f2 : Goal → Goal :=
    fun g => { g with approved := true, status := "active", approved_at := some t2 } with hf2
  refine ⟨f2 (f1 g0), ?_, rfl, rfl, ?_⟩
  · rw [e2]
    exact find?_updateFirstGoal (goalMatch goal_id u) f2 l1 (f1 g0) hfind1 hp2
  · rw [e2]

/-- Claim C2 witness: a concrete pending goal approved twice ends approved
and active, with the second call returning the success confirmation. -/
theorem C2_approve_goal_idempotent_witness :
    ∃ g2 : Goal,
      ((approve_goal 1 "t2" "u1" (approve_goal 1 "t1" "u1" sampleState).1).1.goals.getD []).find?
          (goalMatch 1 "u1") = some g2
      ∧ g2.approved = true ∧ g2.status = "active"
      ∧ (approve_goal 1 "t2" "u1" (approve_goal 1 "t1" "u1" sampleState).1).2
          = approvedMessage g2.title :=
  C2_approve_goal_idempotent sampleState [sampleGoal] 1 "t1" "t2" "u1" rfl
    ⟨sampleGoal, by decide, by decide⟩

/-- Claim C3: update_goal_status overwrites the status field
unconditionally: for any goal that exists for the calling user — its
approved flag and current status unconstrained — and any status string
whatsoever, the call succeeds, sets status to exactly that string, leaves
the approved flag untouched, and returns the per-status message (never the
not-found error). -/
theorem C3_update_goal_status_unconditional (st : StoreState) (gs : List Goal)
    (goal_id : Nat) (status t u : String)
    (hgs : st.goals = some gs)
    (hmem : ∃ g ∈ gs, goalMatch goal_id u g = true) :
    ∃ g0 g1 : Goal,
      gs.find? (goalMatch goal_id u) = some g0
      ∧ ((update_goal_status goal_id status t u st).1.goals.getD []).find?
          (goalMatch goal_id u) = some g1
      ∧ g1.status = status
      ∧ g1.approved = g0.approved
      ∧ g1.id = g0.id ∧ g1.user_id = g0.user_id
      ∧ (update_goal_status goal_id status t u st).2 = statusMessage status g0.title := by
  have hsome : (gs.find? (goalMatch goal_id u)).isSome := by
    rw [List.find?_isSome]
    exact hmem
  obtain ⟨g0, hfind⟩ := Option.isSome_iff_exists.mp hsome
  have hp0 : goalMatch goal_id u g0 = true := List.find?_some hfind
  have hp1 := goalMatch_of_status_update goal_id u status t g0 hp0
  have e1 := update_goal_status_found st gs g0 goal_id status t u hgs hfind
  refine ⟨g0, { g0 with status := status, updated_at := some t }, hfind, ?_, rfl, rfl,
    rfl, rfl, ?_⟩
  · rw [e1]
    exact find?_updateFirstGoal (goalMatch goal_id u)
      (fun g => { g with status := status, updated_at := some t }) gs g0 hfind hp1
  · rw [e1]

/-- Claim C3 witness: forcing a never-approved pending goal straight to
"completed" succeeds, overwrites the status, and leaves approved = false. -/
theorem C3_update_goal_status_unconditional_witness :
    ∃ g0 g1 : Goal,
      [sampleGoal].find? (goalMatch 1 "u1") = some g0
      ∧ ((update_goal_status 1 "completed" "t1" "u1" sampleState).1.goals.getD []).find?
          (goalMatch 1 "u1") = some g1
      ∧ g1.status = "completed"
      ∧ g1.approved = g0.approved
      ∧ g1.id = g0.id ∧ g1.user_id = g0.user_id
      ∧ (update_goal_status 1 "completed" "t1" "u1" sampleState).2
          = statusMessage "completed" g0.title :=
  C3_update_goal_status_unconditional sampleState [sampleGoal] 1 "completed" "t1" "u1" rfl
    ⟨sampleGoal, by decide, by decide⟩

/-- Claim C9: when no goal with the given id belongs to the calling user
but the goals collection exists, approve_goal and update_goal_status both
return the not-found string "❌ Goal ID {id} not found." and leave the
store completely unmodified. -/
theorem C9_goal_not_found_is_string_and_atomic (st : StoreState) (gs : List Goal)
    (goal_id : Nat) (status t1 t2 u : String)
    (hgs : st.goals = some gs)
    (hnone : ∀ g ∈ gs, ¬(g.id = goal_id ∧ g.user_id = u)) :
    approve_goal goal_id t1 u st = (st, goalNotFound goal_id)
    ∧ update_goal_status goal_id status t2 u st = (st, goalNotFound goal_id) := by
  have hfind : gs.find? (goalMatch goal_id u) = none := by
    rw [List.find?_eq_none]
    intro g hg hp
    exact hnone g hg (by simpa [goalMatch] using hp)
  exact ⟨approve_goal_miss st gs goal_id t1 u hgs hfind,
         update_goal_status_miss st gs goal_id status t2 u hgs hfind⟩

/-- Claim C9 witness: goal id 99 does not exist for user u1 in the sample
store, so both calls return the not-found string and change nothing. -/
theorem C9_goal_not_found_witness :
    approve_goal 99 "t1" "u1" sampleState = (sampleState, goalNotFound 99)
    ∧ update_goal_status 99 "paused" "t2" "u1" sampleState = (sampleState, goalNotFound 99) :=
  C9_goal_not_found_is_string_and_atomic sampleState [sampleGoal] 99 "paused" "t1" "t2" "u1"
    rfl (by decide)

theorem assocGet_assocSet_same {α : Type} (k : String) (v : α) :
    ∀ l : List (String × α), assocGet k (assocSet k v l) = some v := by
  intro l
  induction l with
  | nil => simp [assocSet, assocGet]
  | cons p l ih =>
    by_cases h : p.1 == k
    · simp [assocSet, assocGet, h]
    · simp only [Bool.not_eq_true] at h
      simp [assocSet, assocGet, h, ih]

theorem assocGet_assocSet_ne {α : Type} (k k2 : String) (v : α) (h : k2 ≠ k) :
    ∀ l : List (String × α), assocGet k2 (assocSet k v l) = assocGet k2 l := by
  have hk : (k == k2) = false := beq_eq_false_iff_ne.mpr (fun e => h e.symm)
  intro l
  induction l with
  | nil => simp [assocSet, assocGet, hk]
  | cons p l ih =>
    by_cases hp : p.1 == k
    · have : (p.1 == k2) = false := by
        have hpk : p.1 = k := eq_of_beq hp
        rw [hpk]
        exact hk
      simp [assocSet, assocGet, hp, this, hk]
    · simp only [Bool.not_eq_true] at hp
      simp [assocSet, assocGet, hp, ih]

theorem assocSet_assocSet_same {α : Type} (k : String) (v w : α) :
    ∀ l : List (String × α), assocSet k v (assocSet k w l) = assocSet k v l := by
  intro l
  induction l with
  | nil => simp [assocSet]
  | cons p l ih =>
    by_cases h : p.1 == k
    · simp [assocSet, h]
    · simp only [Bool.not_eq_true] at h
      simp [assocSet, h, ih]

theorem userMem_after_set (u : String) (m : Memory) (L : List (String × Memory))
    (st : StoreState) :
    userMem u { st with user_memories := some (assocSet u m L) } = m := by
  unfold userMem initUserMemories
  simp [assocGet_assocSet_same]

theorem userMem_emptyState (u : String) : userMem u emptyState = defaultMemory := by
  unfold userMem initUserMemories emptyState
  simp [assocGet, assocGet_assocSet_same]

/-- The therapeutic_patterns record after one save_therapeutic_pattern
call, given the record it found. -/
def patternsAfter (pats : TherapeuticPatterns) (trigger response : String)
    (helpful : Bool) (now : String) : TherapeuticPatterns :=
  let trigger_key := normalizeTrigger trigger
  let bucket := (assocGet trigger_key pats.triggers).getD
    { helpful_responses := [], unhelpful_responses := [] }
  { pats with triggers := assocSet trigger_key (bucketAppend bucket response helpful now) pats.triggers }

/-- The store after one save_therapeutic_pattern call that found pats. -/
def stateAfterPattern (pats : TherapeuticPatterns) (trigger response : String)
    (helpful : Bool) (now u : String) (st : StoreState) : StoreState :=
  { st with user_memories := some (assocSet u
      (assocSet "therapeutic_patterns"
        (MemValue.patterns (patternsAfter pats trigger response helpful now))
        (userMem u st))
      (initUserMemories u st)) }

theorem save_therapeutic_pattern_step (trigger response : String) (helpful : Bool)
    (now u : String) (st : StoreState) (pats : TherapeuticPatterns)
    (hp : assocGet "therapeutic_patterns" (userMem u st) = some (MemValue.patterns pats)) :
    save_therapeutic_pattern trigger response helpful now u st =
      some (stateAfterPattern pats trigger response helpful now u st,
        if helpful then "✓ Marked as helpful for \x27" ++ trigger ++ "\x27"
        else "✓ Marked as unhelpful for \x27" ++ trigger ++ "\x27 - will try different approach next time") := by
  simp only [save_therapeutic_pattern, stateAfterPattern, patternsAfter, hp]

/-- Claim C4: trigger keys normalize via lowercase + trim: whenever two
trigger strings have the same normalized form, two
save_therapeutic_pattern calls by the same user append their entries into
one and the same trigger bucket of the therapeutic_patterns
triggers mapping. -/
theorem C4_trigger_keys_normalized_share_bucket (t1 t2 r1 r2 : String) (b1 b2 : Bool)
    (n1 n2 u : String)
    (hkey : normalizeTrigger t1 = normalizeTrigger t2) :
    ∃ (st1 st2 : StoreState) (m1 m2 : String) (pats : TherapeuticPatterns),
      save_therapeutic_pattern t1 r1 b1 n1 u emptyState = some (st1, m1)
      ∧ save_therapeutic_pattern t2 r2 b2 n2 u st1 = some (st2, m2)
      ∧ assocGet "therapeutic_patterns" (userMem u st2) = some (MemValue.patterns pats)
      ∧ pats.triggers = [(normalizeTrigger t1,
          { helpful_responses :=
              (if b1 then [{ response := r1, timestamp := n1 }] else [])
              ++ (if b2 then [{ response := r2, timestamp := n2 }] else []),
            unhelpful_responses :=
              (if b1 then [] else [{ response := r1, timestamp := n1 }])
              ++ (if b2 then [] else [{ response := r2, timestamp := n2 }]) })] := by
  have hp0 : assocGet "therapeutic_patterns" (userMem u emptyState)
      = some (MemValue.patterns { triggers := [], preferred_styles := [], avoided_styles := [] }) := by
    rw [userMem_emptyState]
    decide
  have e1 := save_therapeutic_pattern_step t1 r1 b1 n1 u emptyState
    { triggers := [], preferred_styles := [], avoided_styles := [] } hp0
  have hm1 : userMem u (stateAfterPattern
        { triggers := [], preferred_styles := [], avoided_styles := [] } t1 r1 b1 n1 u emptyState)
      = assocSet "therapeutic_patterns"
          (MemValue.patterns (patternsAfter
            { triggers := [], preferred_styles := [], avoided_styles := [] } t1 r1 b1 n1))
          (userMem u emptyState) := by
    unfold stateAfterPattern
    exact userMem_after_set u _ _ emptyState
  have hp1 : assocGet "therapeutic_patterns" (userMem u (stateAfterPattern
        { triggers := [], preferred_styles := [], avoided_styles := [] } t1 r1 b1 n1 u emptyState))
      = some (MemValue.patterns (patternsAfter
          { triggers := [], preferred_styles := [], avoided_styles := [] } t1 r1 b1 n1)) := by
    rw [hm1]
    exact assocGet_assocSet_same _ _ _
  have e2 := save_therapeutic_pattern_step t2 r2 b2 n2 u
    (stateAfterPattern { triggers := [], preferred_styles := [], avoided_styles := [] } t1 r1 b1 n1 u emptyState)
    (patternsAfter { triggers := [], preferred_styles := [], avoided_styles := [] } t1 r1 b1 n1) hp1
  have hm2 : userMem u (stateAfterPattern
        (patternsAfter { triggers := [], preferred_styles := [], avoided_styles := [] } t1 r1 b1 n1)
        t2 r2 b2 n2 u
        (stateAfterPattern { triggers := [], preferred_styles := [], avoided_styles := [] } t1 r1 b1 n1 u emptyState))
      = assocSet "therapeutic_patterns"
          (MemValue.patterns (patternsAfter
            (patternsAfter { triggers := [], preferred_styles := [], avoided_styles := [] } t1 r1 b1 n1)
            t2 r2 b2 n2))
          (userMem u (stateAfterPattern
            { triggers := [], preferred_styles := [], avoided_styles := [] } t1 r1 b1 n1 u emptyState)) := by
    unfold stateAfterPattern
    exact userMem_after_set u _ _ _
  have hp2 : assocGet "therapeutic_patterns" (userMem u (stateAfterPattern
        (patternsAfter { triggers := [], preferred_styles := [], avoided_styles := [] } t1 r1 b1 n1)
        t2 r2 b2 n2 u
        (stateAfterPattern { triggers := [], preferred_styles := [], avoided_styles := [] } t1 r1 b1 n1 u emptyState)))
      = some (MemValue.patterns (patternsAfter
          (patternsAfter { triggers := [], preferred_styles := [], avoided_styles := [] } t1 r1 b1 n1)
          t2 r2 b2 n2)) := by
    rw [hm2]
    exact assocGet_assocSet_same _ _ _
  refine ⟨_, _, _, _, _, e1, e2, hp2, ?_⟩
  show (patternsAfter
      (patternsAfter { triggers := [], preferred_styles := [], avoided_styles := [] } t1 r1 b1 n1)
      t2 r2 b2 n2).triggers = _
  simp only [patternsAfter]
  rw [← hkey, assocGet_assocSet_same, assocSet_assocSet_same]
  cases b1 <;> cases b2 <;> simp [assocSet, assocGet, bucketAppend]

/-- Claim C4 witness: "Stressed" and "stressed" normalize to the same key,
so both calls land in the single bucket for "stressed". -/
theorem C4_trigger_keys_normalized_witness :
    ∃ (st1 st2 : StoreState) (m1 m2 : String) (pats : TherapeuticPatterns),
      save_therapeutic_pattern "Stressed" "4-7-8 breathing" true "n1" "u1" emptyState
        = some (st1, m1)
      ∧ save_therapeutic_pattern "stressed" "quick walk" false "n2" "u1" st1
        = some (st2, m2)
      ∧ assocGet "therapeutic_patterns" (userMem "u1" st2) = some (MemValue.patterns pats)
      ∧ pats.triggers = [(normalizeTrigger "Stressed",
          { helpful_responses :=
              (if true then [{ response := "4-7-8 breathing", timestamp := "n1" }] else [])
              ++ (if false then [{ response := "quick walk", timestamp := "n2" }] else []),
            unhelpful_responses :=
              (if true then [] else [{ response := "4-7-8 breathing", timestamp := "n1" }])
              ++ (if false then [] else [{ response := "quick walk", timestamp := "n2" }]) })] :=
  C4_trigger_keys_normalized_share_bucket "Stressed" "stressed" "4-7-8 breathing"
    "quick walk" true false "n1" "n2" "u1" (by decide)

theorem save_to_memory_fallback (key value user_id : String) (st : StoreState)
    (h1 : key ≠ "name") (h2 : key ≠ "interests") (h3 : key ≠ "preferences")
    (h4 : key ≠ "history") :
    save_to_memory key value user_id st =
      some ({ st with user_memories := some (assocSet user_id
               (assocSet key (MemValue.str value) (userMem user_id st))
               (initUserMemories user_id st)) },
            "✓ Saved " ++ key ++ " to memory") := by
  have b1 : (key == "name") = false := beq_eq_false_iff_ne.mpr h1
  have b2 : (key == "interests") = false := beq_eq_false_iff_ne.mpr h2
  have b3 : (key == "preferences") = false := beq_eq_false_iff_ne.mpr h3
  have b4 : (key == "history") = false := beq_eq_false_iff_ne.mpr h4
  simp only [save_to_memory, b1, b2, b3, b4, Bool.false_eq_true, if_false]

/-- Claim C5 (amended): the save_to_memory call of the insight-generator
stage with key "journal_entry" does not append to the history sequence of
the user: it stores the value as a top-level journal_entry field of the
user memory record, holding only the latest value, and leaves history exactly
as it was. -/
theorem C5_journal_entry_is_top_level_field (v user_id : String) (st : StoreState) :
    save_to_memory "journal_entry" v user_id st
      = some ({ st with user_memories := some (assocSet user_id
            (assocSet "journal_entry" (MemValue.str v) (userMem user_id st))
            (initUserMemories user_id st)) },
          "✓ Saved journal_entry to memory")
    ∧ assocGet "journal_entry"
        (assocSet "journal_entry" (MemValue.str v) (userMem user_id st))
        = some (MemValue.str v)
    ∧ assocGet "history"
        (assocSet "journal_entry" (MemValue.str v) (userMem user_id st))
        = assocGet "history" (userMem user_id st) := by
  refine ⟨?_, assocGet_assocSet_same _ _ _, assocGet_assocSet_ne _ _ _ (by decide) _⟩
  rw [save_to_memory_fallback "journal_entry" v user_id st
    (by decide) (by decide) (by decide) (by decide)]
  rfl

/-- Claim C5 counterexample: two successive journal_entry saves for a fresh
user leave history empty — nothing was appended to the history sequence —
and only the second value survives: entries do not accumulate. -/
theorem C5_journal_entry_counterexample :
    (save_to_memory "journal_entry" "first entry" "u1" emptyState).bind
        (fun p => save_to_memory "journal_entry" "second entry" "u1" p.1)
      = some ({ tasks := none, reminders := none, goals := none,
                user_memories := some [("u1",
                  [("personal_details", MemValue.strMap []),
                   ("preferences", MemValue.strMap []),
                   ("therapeutic_patterns", MemValue.patterns
                     { triggers := [], preferred_styles := [], avoided_styles := [] }),
                   ("history", MemValue.strList []),
                   ("interests", MemValue.strList []),
                   ("journal_entry", MemValue.str "second entry")])] },
              "✓ Saved journal_entry to memory") := by
  decide

/-- Claim C10: save_to_memory with any key outside name / interests /
preferences / history stores the raw value string as a top-level field of
the user memory record named by that key (so "personal_details" or
"therapeutic_patterns" get replaced by a flat string), and a repeated call
with the same key overwrites the previous value instead of accumulating;
all other keys are left untouched. -/
theorem C10_unrecognized_key_stored_flat (key v1 v2 u : String) (st : StoreState)
    (h1 : key ≠ "name") (h2 : key ≠ "interests") (h3 : key ≠ "preferences")
    (h4 : key ≠ "history") :
    ∃ st1 st2 : StoreState,
      save_to_memory key v1 u st = some (st1, "✓ Saved " ++ key ++ " to memory")
      ∧ userMem u st1 = assocSet key (MemValue.str v1) (userMem u st)
      ∧ assocGet key (userMem u st1) = some (MemValue.str v1)
      ∧ save_to_memory key v2 u st1 = some (st2, "✓ Saved " ++ key ++ " to memory")
      ∧ assocGet key (userMem u st2) = some (MemValue.str v2)
      ∧ ∀ k2, k2 ≠ key → assocGet k2 (userMem u st2) = assocGet k2 (userMem u st) := by
  have e1 := save_to_memory_fallback key v1 u st h1 h2 h3 h4
  have hm1 : userMem u { st with user_memories := some (assocSet u
        (assocSet key (MemValue.str v1) (userMem u st)) (initUserMemories u st)) }
      = assocSet key (MemValue.str v1) (userMem u st) :=
    userMem_after_set u _ _ st
  have e2 := save_to_memory_fallback key v2 u
    { st with user_memories := some (assocSet u
        (assocSet key (MemValue.str v1) (userMem u st)) (initUserMemories u st)) }
    h1 h2 h3 h4
  have hm2 : userMem u { { st with user_memories := some (assocSet u
          (assocSet key (MemValue.str v1) (userMem u st)) (initUserMemories u st)) }
        with user_memories := some (assocSet u
          (assocSet key (MemValue.str v2) (userMem u
            { st with user_memories := some (assocSet u
              (assocSet key (MemValue.str v1) (userMem u st)) (initUserMemories u st)) }))
          (initUserMemories u
            { st with user_memories := some (assocSet u
              (assocSet key (MemValue.str v1) (userMem u st)) (initUserMemories u st)) })) }
      = assocSet key (MemValue.str v2) (userMem u
          { st with user_memories := some (assocSet u
            (assocSet key (MemValue.str v1) (userMem u st)) (initUserMemories u st)) }) :=
    userMem_after_set u _ _ _
  refine ⟨_, _, e1, hm1, ?_, e2, ?_, ?_⟩
  · rw [hm1]
    exact assocGet_assocSet_same _ _ _
  · rw [hm2]
    exact assocGet_assocSet_same _ _ _
  · intro k2 hk2
    rw [hm2, assocGet_assocSet_ne key k2 _ hk2 _, hm1,
      assocGet_assocSet_ne key k2 _ hk2 _]

/-- Claim C10 witness: saving under key "personal_details" replaces the
structured personal_details sub-mapping with a flat string, and a second
save overwrites the first. -/
theorem C10_unrecognized_key_witness :
    ∃ st1 st2 : StoreState,
      save_to_memory "personal_details" "just a string" "u1" emptyState
        = some (st1, "✓ Saved " ++ "personal_details" ++ " to memory")
      ∧ userMem "u1" st1
          = assocSet "personal_details" (MemValue.str "just a string") (userMem "u1" emptyState)
      ∧ assocGet "personal_details" (userMem "u1" st1)
          = some (MemValue.str "just a string")
      ∧ save_to_memory "personal_details" "another string" "u1" st1
          = some (st2, "✓ Saved " ++ "personal_details" ++ " to memory")
      ∧ assocGet "personal_details" (userMem "u1" st2)
          = some (MemValue.str "another string")
      ∧ ∀ k2, k2 ≠ "personal_details" →
          assocGet k2 (userMem "u1" st2) = assocGet k2 (userMem "u1" emptyState) :=
  C10_unrecognized_key_stored_flat "personal_details" "just a string" "another string"
    "u1" emptyState (by decide) (by decide) (by decide) (by decide)

/-- Claim C6 counterexample: load_memory does not return a human-readable
string — the value it hands back to the calling context is the structured
record {"user_id", "memory"}. -/
theorem C6_load_memory_counterexample :
    (load_memory "u1" emptyState).2.isText = false := by
  decide

/-- Claim C6 (amended): every tool function except load_memory returns a
human-readable string (their return type in the embedding is String);
load_memory instead always returns the structured record
{"user_id": ..., "memory": ...}, never a text value. -/
theorem C6_load_memory_returns_structured (u : String) (st : StoreState) :
    ∃ m : Memory,
      (load_memory u st).2 = ToolRet.structured { user_id := u, memory := m }
      ∧ (load_memory u st).2.isText = false :=
  ⟨(assocGet u (initUserMemories u st)).getD defaultMemory, rfl, rfl⟩

/-- Claim C7 counterexample: the sequential journal-analysis pipeline is
not among the candidate delegation targets of the Root Dispatcher. -/
theorem C7_pipeline_not_delegatable :
    journal_analysis_flow.name ∉ root_agent.sub_agents := by
  decide

/-- Claim C7 (amended): the Root Dispatcher holds the two personal-memory
tools as its own tools and lists exactly the four specialized agents as
candidate delegation targets; the three-stage journal-analysis pipeline
exists with its three stages but is not among the delegation
targets of the root, so a turn cannot be delegated to it from the root. -/
theorem C7_root_agent_configuration :
    root_agent.tools = ["load_memory", "save_to_memory"]
    ∧ root_agent.sub_agents = [therapeutic_agent.name, task_agent.name,
        goal_refinement_agent.name, search_agent.name]
    ∧ journal_analysis_flow.sub_agents = [emotion_extractor_agent.name,
        pattern_analyzer_agent.name, insight_generator_agent.name]
    ∧ journal_analysis_flow.name ∉ root_agent.sub_agents :=
  ⟨rfl, rfl, rfl, by decide⟩

end AiTherapist
